import Mathlib

/-!
Shallow embedding of the Factory Guardian sensor-health engine.

The statistics operate on per-machine series of readings.  Python/numpy float
values are embedded as exact rationals; the pandas sample standard deviation
(ddof = 1) of fewer than two samples is NaN, tracked below through its square
(the sample variance) as an Option value whose none case models NaN.  Guards of
the shape b_std > 0 evaluate to false on NaN in Python, which the embedding
mirrors.
-/

namespace FactoryGuardian

/-- One sensor reading of a machine series: the four numeric channels used by
the detection logic.  Timestamp, machine id, machine type and rpm are carried
by the telemetry source but never read by the statistics, so they are
omitted. -/
structure Reading where
  vibration_g : ℚ
  temperature_c : ℚ
  pressure_bar : ℚ
  power_kw : ℚ
deriving DecidableEq

/-- The four sensor channels. -/
inductive Channel
  | vibration_g
  | temperature_c
  | pressure_bar
  | power_kw
deriving DecidableEq

/-- Projection of a reading onto one channel. -/
def Reading.channel (r : Reading) : Channel → ℚ
  | .vibration_g => r.vibration_g
  | .temperature_c => r.temperature_c
  | .pressure_bar => r.pressure_bar
  | .power_kw => r.power_kw

/-- The column of values of one channel over a window, e.g.
baseline[col] in the source. -/
def colValues (data : List Reading) (c : Channel) : List ℚ :=
  data.map (fun r => r.channel c)

/-- pandas Series.mean.  Every window it is applied to below is non-empty. -/
def qmean (xs : List ℚ) : ℚ := xs.sum / (xs.length : ℚ)

/-- The square of pandas Series.std (sample variance, ddof = 1).  pandas
returns NaN on fewer than two samples, modelled as none. -/
def sampleVar (xs : List ℚ) : Option ℚ :=
  if 2 ≤ xs.length then
    some ((xs.map (fun x => (x - qmean xs) ^ 2)).sum / ((xs.length : ℚ) - 1))
  else none

/-- The Python guard b_std > 0: false when the std is NaN (in Python NaN > 0 is
false), and for a defined std, sqrt v > 0 iff 0 < v since the sample variance v
is non-negative. -/
def stdPos (xs : List ℚ) : Bool :=
  match sampleVar xs with
  | some v => decide (0 < v)
  | none => false

/-- Lines 58 to 61 of analyzer.py (identically dashboard.py:143 and
auto_monitor.py:63 to 66), stated on the already-computed window statistics:
z_score = (current_avg - baseline_avg) / baseline_std when baseline_std > 0,
else 0. -/
def z_score (baseline_avg baseline_std current_avg : ℚ) : ℚ :=
  if 0 < baseline_std then (current_avg - baseline_avg) / baseline_std else 0

/-- df.tail(n): the last n rows (all of them when the frame is shorter). -/
def lastN {α : Type} (n : ℕ) (xs : List α) : List α :=
  xs.drop (xs.length - n)

/-- The strict test abs(z_score) > abs(threshold) of auto_monitor.py:68 (and
is_anomaly = abs(z) > 2 of dashboard.py:151), expressed on the baseline sample
variance v, where b_std = sqrt v: for b_std > 0 one has
abs(c - b) / b_std > abs(t) iff t ^ 2 * v < (c - b) ^ 2, and when the std is 0
or NaN the z_score is 0, so the strict test fails. -/
def absZExceeds (baseline current : List ℚ) (t : ℚ) : Bool :=
  match sampleVar baseline with
  | some v =>
      decide (0 < v) && decide (t ^ 2 * v < (qmean current - qmean baseline) ^ 2)
  | none => false

/-- Declared direction of a per-channel check in auto_monitor.py. -/
inductive Direction
  | up
  | down
deriving DecidableEq

/-- One entry of the checks table of auto_monitor.py:51 to 56. -/
structure CheckCfg where
  channel : Channel
  direction : Direction
  threshold : ℚ
deriving DecidableEq

/-- The checks table of auto_monitor.py:51 to 56.  The direction field is
declared by the source but never read by check_machine. -/
def checks : List CheckCfg :=
  [⟨.vibration_g, .up, 2⟩, ⟨.temperature_c, .up, 2⟩,
   ⟨.pressure_bar, .down, -2⟩, ⟨.power_kw, .up, 2⟩]

/-- check_machine of auto_monitor.py:44 to 78: baseline = data.head(10),
current = data.tail(3); a channel is appended to alerts exactly when
abs(z_score) > abs(threshold).  The rounded display fields of each alert dict
are not modelled; which channels are flagged (hence the length of alerts)
is. -/
def check_machine (data : List Reading) : List Channel :=
  (checks.filter (fun cfg =>
    absZExceeds (colValues (data.take 10) cfg.channel)
      (colValues (lastN 3 data) cfg.channel) cfg.threshold)).map
    (fun cfg => cfg.channel)

/-- The three alert levels. -/
inductive AlertLevel
  | NORMAL
  | WARNING
  | CRITICAL
deriving DecidableEq

/-- get_alert_level of dashboard.py:124 to 130 (duplicated at app.py:166 to
169); the icon and css-class components of the source tuple are display-only
and omitted. -/
def get_alert_level (health_score : ℚ) : AlertLevel :=
  if health_score < 40 then .CRITICAL
  else if health_score < 70 then .WARNING
  else .NORMAL

/-- The anomaly-count classification of run_monitoring_cycle,
auto_monitor.py:106 to 117: len(alerts) >= 3 is CRITICAL, >= 1 is WARNING,
otherwise NORMAL. -/
def monitor_level (alerts : List Channel) : AlertLevel :=
  if 3 ≤ alerts.length then .CRITICAL
  else if 1 ≤ alerts.length then .WARNING
  else .NORMAL

/-- The per-machine outcome of run_monitoring_cycle: the alert level together
with the dispatched payload (the list of anomalous channels).  A NORMAL
machine is skipped with continue before the message is built, so nothing is
dispatched for it (auto_monitor.py:113 to 117 and 142). -/
def monitor_dispatch (data : List Reading) : AlertLevel × Option (List Channel) :=
  if monitor_level (check_machine data) = .NORMAL then (.NORMAL, none)
  else (monitor_level (check_machine data), some (check_machine data))

/-- change_pct of get_z_scores, dashboard.py:144: the division is guarded by
b_mean > 0, else 0. -/
def change_pct (baseline current : List ℚ) : ℚ :=
  if 0 < qmean baseline then
    (qmean current - qmean baseline) / qmean baseline * 100
  else 0

/-- change_percent of calculate_basic_stats, analyzer.py:63: the division by
baseline_avg has no zero guard; with numpy floats a zero baseline mean yields
an inf or nan result, modelled as none. -/
def change_percent_raw (baseline current : List ℚ) : Option ℚ :=
  if qmean baseline = 0 then none
  else some ((qmean current - qmean baseline) / qmean baseline * 100)

/-- One channel sub-score of calculate_health_score (dashboard.py:103 to 119;
identically email_report.py:27 to 41 and app.py:155 to 163): for a positive
baseline mean, max(0, 100 - (abs(c - b) / b) * 500); otherwise 100. -/
def sub_score (baseline_avg current_avg : ℚ) : ℚ :=
  if 0 < baseline_avg then
    max 0 (100 - |current_avg - baseline_avg| / baseline_avg * 500)
  else 100

/-- Python round(x, 1): round to the nearest multiple of 1/10, ties to the
even tenth.  The tie direction is immaterial to every statement below. -/
def pyRound1 (q : ℚ) : ℚ :=
  if 10 * q - (⌊10 * q⌋ : ℚ) < 1 / 2 then (⌊10 * q⌋ : ℚ) / 10
  else if 1 / 2 < 10 * q - (⌊10 * q⌋ : ℚ) then ((⌊10 * q⌋ : ℚ) + 1) / 10
  else if ⌊10 * q⌋ % 2 = 0 then (⌊10 * q⌋ : ℚ) / 10
  else ((⌊10 * q⌋ : ℚ) + 1) / 10

/-- The proportional baseline window, dashboard.py:97 / email_report.py:22:
machine_data.head(max(5, len(machine_data) // 4)). -/
def prop_baseline (data : List Reading) : List Reading :=
  data.take (max 5 (data.length / 4))

/-- The proportional current window, dashboard.py:98 / email_report.py:23:
machine_data.tail(max(3, len(machine_data) // 6)). -/
def prop_current (data : List Reading) : List Reading :=
  lastN (max 3 (data.length / 6)) data

/-- One channel sub-score over the proportional windows. -/
def channel_sub_score (data : List Reading) (c : Channel) : ℚ :=
  sub_score (qmean (colValues (prop_baseline data) c))
    (qmean (colValues (prop_current data) c))

/-- calculate_health_score of dashboard.py:96 to 121 (= calculate_health of
email_report.py:20 to 43): round(sum(scores) / len(scores), 1) over the four
channel sub-scores, computed in source order vibration, temperature, power,
pressure. -/
def calculate_health_score (data : List Reading) : ℚ :=
  pyRound1 ((channel_sub_score data .vibration_g
    + channel_sub_score data .temperature_c
    + channel_sub_score data .power_kw
    + channel_sub_score data .pressure_bar) / 4)

/-- Possible outcomes of the work attempted inside one monitoring cycle. -/
inductive CycleOutcome
  | success
  | dataUnavailable
  | cycleError
deriving DecidableEq

/-- Python exceptions that can escape the cycle into the main loop.  except
Exception does not catch KeyboardInterrupt, so the two are distinguished. -/
inductive PyExc
  | keyboardInterrupt
  | otherError
deriving DecidableEq

/-- run_monitoring_cycle as seen from the main loop (auto_monitor.py:81 to
145): its own try/except FileNotFoundError (lines 88 to 93) catches a missing
sensor_data.csv and returns normally, so a DataUnavailable outcome never
escapes; any other failure escapes as an ordinary exception. -/
def run_monitoring_cycle : CycleOutcome → Except PyExc Unit
  | .success => .ok ()
  | .dataUnavailable => .ok ()
  | .cycleError => .error .otherError

/-- What happens in one iteration of the while-True loop: either the cycle is
attempted with some outcome, or a KeyboardInterrupt is delivered. -/
inductive LoopEvent
  | cycle (o : CycleOutcome)
  | interrupt
deriving DecidableEq

/-- auto_monitor.py:160: the inter-cycle sleep, 60 seconds in the testing
configuration. -/
def CHECK_INTERVAL : ℕ := 60

/-- The result of one iteration of the main loop.  crash models an exception
reaching the top of the process unhandled. -/
inductive LoopOutcome
  | sleepThenRetry (seconds : ℕ)
  | cleanExit
  | crash
deriving DecidableEq

/-- One iteration of the main loop, auto_monitor.py:162 to 173: try the cycle
and sleep CHECK_INTERVAL; except KeyboardInterrupt breaks out; except
Exception logs and sleeps 60 seconds before the whole cycle is retried.  The
two handlers cover every PyExc, so the crash outcome is never produced. -/
def loop_iteration : LoopEvent → LoopOutcome
  | .interrupt => .cleanExit
  | .cycle o =>
      match run_monitoring_cycle o with
      | .ok _ => .sleepThenRetry CHECK_INTERVAL
      | .error .keyboardInterrupt => .cleanExit
      | .error .otherError => .sleepThenRetry 60

/-- Terminal observation of the loop over a finite trace. -/
inductive LoopState
  | running
  | stopped
  | crashed
deriving DecidableEq

/-- The main loop run over a finite trace of iteration events: it keeps
looping until an iteration exits. -/
def loop_run : List LoopEvent → LoopState
  | [] => .running
  | e :: rest =>
      match loop_iteration e with
      | .cleanExit => .stopped
      | .crash => .crashed
      | .sleepThenRetry _ => loop_run rest

/-- A reading with nominal vibration, temperature and power and the given
pressure. -/
def pReading (p : ℚ) : Reading := ⟨1, 50, p, 10⟩

/-- Thirteen readings whose pressure rises: the baseline (first ten) has
pressure mean 51/10 and sample variance 1/10, the current window (last three)
has pressure mean 7, so the pressure z-score is about +6; all other channels
are constant. -/
def pressureRiseSeries : List Reading :=
  [pReading 5, pReading 5, pReading 5, pReading 5, pReading 5,
   pReading 5, pReading 5, pReading 5, pReading 5, pReading 6,
   pReading 7, pReading 7, pReading 7]

/-- A machine series whose vibration channel is dead at 0 over the fixed
baseline window and alive over the current window: the baseline vibration mean
is exactly 0. -/
def zeroVibSeries : List Reading :=
  [⟨0, 50, 5, 10⟩, ⟨0, 50, 5, 10⟩, ⟨0, 50, 5, 10⟩, ⟨0, 50, 5, 10⟩, ⟨0, 50, 5, 10⟩,
   ⟨0, 50, 5, 10⟩, ⟨0, 50, 5, 10⟩, ⟨0, 50, 5, 10⟩, ⟨0, 50, 5, 10⟩, ⟨0, 50, 5, 10⟩,
   ⟨2, 50, 5, 10⟩, ⟨2, 50, 5, 10⟩, ⟨2, 50, 5, 10⟩, ⟨2, 50, 5, 10⟩, ⟨2, 50, 5, 10⟩]

/-- Any sub-score is non-negative: the formula is wrapped in max(0, _). -/
theorem sub_score_nonneg (b c : ℚ) : 0 ≤ sub_score b c := by
  by_cases hb : 0 < b
  · unfold sub_score
    rw [if_pos hb]
    exact le_max_left 0 _
  · unfold sub_score
    rw [if_neg hb]
    norm_num

/-- Any sub-score is at most 100: the relative change is non-negative when the
baseline mean is positive, and the degenerate branch returns exactly 100. -/
theorem sub_score_le_100 (b c : ℚ) : sub_score b c ≤ 100 := by
  by_cases hb : 0 < b
  · unfold sub_score
    rw [if_pos hb]
    have h1 : 0 ≤ |c - b| / b := div_nonneg (abs_nonneg _) (le_of_lt hb)
    have h2 : 0 ≤ |c - b| / b * 500 := mul_nonneg h1 (by norm_num)
    exact max_le (by norm_num) (by linarith)
  · unfold sub_score
    rw [if_neg hb]

/-- Every sub-score has the shape max(0, 100 - relative_change * 500) for a
non-negative relative change (0 in the degenerate branch). -/
theorem sub_score_form (b c : ℚ) :
    ∃ rc : ℚ, 0 ≤ rc ∧ sub_score b c = max 0 (100 - rc * 500) := by
  by_cases hb : 0 < b
  · refine ⟨|c - b| / b, div_nonneg (abs_nonneg _) (le_of_lt hb), ?_⟩
    unfold sub_score
    rw [if_pos hb]
  · refine ⟨0, le_refl 0, ?_⟩
    unfold sub_score
    rw [if_neg hb]
    norm_num

/-- Rounding to one decimal keeps a value of [0, 100] inside [0, 100]. -/
theorem pyRound1_bounds (q : ℚ) (h0 : 0 ≤ q) (h100 : q ≤ 100) :
    0 ≤ pyRound1 q ∧ pyRound1 q ≤ 100 := by
  have hf0 : (0 : ℤ) ≤ ⌊10 * q⌋ := Int.le_floor.mpr (by push_cast; linarith)
  have hF0 : (0 : ℚ) ≤ ((⌊10 * q⌋ : ℤ) : ℚ) := by exact_mod_cast hf0
  have hFq : ((⌊10 * q⌋ : ℤ) : ℚ) ≤ 10 * q := Int.floor_le _
  have hF1000 : ((⌊10 * q⌋ : ℤ) : ℚ) ≤ 1000 := by linarith
  have h999 : (1 / 2 : ℚ) ≤ 10 * q - (⌊10 * q⌋ : ℚ) → ((⌊10 * q⌋ : ℤ) : ℚ) ≤ 999 := by
    intro hhalf
    have hle : ⌊10 * q⌋ ≤ 999 := by
      by_contra hc
      push_neg at hc
      have h1000 : (1000 : ℚ) ≤ ((⌊10 * q⌋ : ℤ) : ℚ) := by exact_mod_cast hc
      linarith
    exact_mod_cast hle
  by_cases h1 : 10 * q - (⌊10 * q⌋ : ℚ) < 1 / 2
  · unfold pyRound1
    rw [if_pos h1]
    exact ⟨by linarith, by linarith⟩
  · push_neg at h1
    have hc := h999 h1
    by_cases h2 : (1 / 2 : ℚ) < 10 * q - (⌊10 * q⌋ : ℚ)
    · unfold pyRound1
      rw [if_neg (not_lt.mpr h1), if_pos h2]
      exact ⟨by linarith, by linarith⟩
    · by_cases h3 : ⌊10 * q⌋ % 2 = 0
      · unfold pyRound1
        rw [if_neg (not_lt.mpr h1), if_neg h2, if_pos h3]
        exact ⟨by linarith, by linarith⟩
      · unfold pyRound1
        rw [if_neg (not_lt.mpr h1), if_neg h2, if_neg h3]
        exact ⟨by linarith, by linarith⟩

/-- Each channel sub-score of a machine series lies in [0, 100]. -/
theorem channel_sub_score_bounds (data : List Reading) (c : Channel) :
    0 ≤ channel_sub_score data c ∧ channel_sub_score data c ≤ 100 :=
  ⟨sub_score_nonneg _ _, sub_score_le_100 _ _⟩

/-- An iteration of the main loop exits exactly on a KeyboardInterrupt. -/
theorem loop_iteration_cleanExit (e : LoopEvent) :
    loop_iteration e = .cleanExit ↔ e = .interrupt := by
  cases e with
  | interrupt => simp [loop_iteration]
  | cycle o => cases o <;> simp [loop_iteration, run_monitoring_cycle]

/-- No iteration of the main loop produces the crash outcome: the two except
handlers cover every exception that can escape a cycle. -/
theorem loop_iteration_ne_crash (e : LoopEvent) : loop_iteration e ≠ .crash := by
  cases e with
  | interrupt => simp [loop_iteration]
  | cycle o => cases o <;> simp [loop_iteration, run_monitoring_cycle]

/-- Over any finite trace the loop never crashes, and it has stopped exactly
when a KeyboardInterrupt occurred in the trace. -/
theorem loop_run_spec (es : List LoopEvent) :
    loop_run es ≠ .crashed ∧ (loop_run es = .stopped ↔ LoopEvent.interrupt ∈ es) := by
  induction es with
  | nil => simp [loop_run]
  | cons e rest ih =>
      cases e with
      | interrupt => simp [loop_run, loop_iteration]
      | cycle o =>
          cases o <;>
            simpa [loop_run, loop_iteration, run_monitoring_cycle] using ih

/-- Claim C2 counterexample: on a fixed-window pair whose baseline mean is 0
(the vibration column of zeroVibSeries), change_percent of
calculate_basic_stats (analyzer.py:63) does not return 0: the unguarded
division by the zero baseline mean yields a non-finite float, modelled as
none. -/
theorem claim_C2_zero_mean_counterexample :
    qmean (colValues (zeroVibSeries.take 10) Channel.vibration_g) = 0 ∧
    change_percent_raw (colValues (zeroVibSeries.take 10) Channel.vibration_g)
      (colValues (lastN 5 zeroVibSeries) Channel.vibration_g) = none := by
  have h : qmean (colValues (zeroVibSeries.take 10) Channel.vibration_g) = 0 := by
    norm_num [qmean, zeroVibSeries, colValues, Reading.channel]
  refine ⟨h, ?_⟩
  unfold change_percent_raw
  rw [if_pos h]

/-- Claim C2 (amended): the dashboard detector get_z_scores guards the percent
change by b_mean > 0 and returns 0 on a zero baseline mean, totally; the
textual analyzer calculate_basic_stats divides unguarded, and on a zero
baseline mean its change_percent is a non-finite value rather than 0. -/
theorem claim_C2_change_percent_guards (baseline current : List ℚ) :
    (0 < qmean baseline →
      change_pct baseline current
        = (qmean current - qmean baseline) / qmean baseline * 100) ∧
    (qmean baseline = 0 → change_pct baseline current = 0) ∧
    (qmean baseline = 0 → change_percent_raw baseline current = none) := by
  refine ⟨fun h => ?_, fun h => ?_, fun h => ?_⟩
  · unfold change_pct
    rw [if_pos h]
  · unfold change_pct
    rw [if_neg (by simp [h])]
  · unfold change_percent_raw
    rw [if_pos h]

/-- Claim C2 witness: the guarded detector evaluated on concrete windows with
positive and with zero baseline means. -/
theorem claim_C2_change_percent_guards_witness :
    change_pct [(2 : ℚ)] [3] = (qmean [(3 : ℚ)] - qmean [(2 : ℚ)]) / qmean [(2 : ℚ)] * 100 ∧
    change_pct [(0 : ℚ)] [3] = 0 ∧
    change_percent_raw [(0 : ℚ)] [3] = none :=
  ⟨(claim_C2_change_percent_guards [2] [3]).1 (by norm_num [qmean]),
   (claim_C2_change_percent_guards [0] [3]).2.1 (by simp [qmean]),
   (claim_C2_change_percent_guards [0] [3]).2.2 (by simp [qmean])⟩

/-- Claim C3: for any computed window statistics, z_score equals
(current_mean - baseline_mean) / baseline_std when baseline_std > 0, and is 0
when baseline_std = 0 regardless of the current values. -/
theorem claim_C3_z_score_guard (baseline_avg baseline_std current_avg : ℚ) :
    (0 < baseline_std →
      z_score baseline_avg baseline_std current_avg
        = (current_avg - baseline_avg) / baseline_std) ∧
    (baseline_std = 0 → z_score baseline_avg baseline_std current_avg = 0) := by
  constructor
  · intro h
    unfold z_score
    rw [if_pos h]
  · intro h
    unfold z_score
    rw [if_neg (by simp [h])]

/-- Claim C3 witness: the two branches at concrete statistics. -/
theorem claim_C3_z_score_guard_witness :
    z_score 1 2 5 = (5 - 1) / 2 ∧ z_score 3 0 99 = 0 :=
  ⟨(claim_C3_z_score_guard 1 2 5).1 (by decide),
   (claim_C3_z_score_guard 3 0 99).2 rfl⟩

/-- Claim C4: the score-threshold classifier maps h < 40 to CRITICAL,
40 ≤ h < 70 to WARNING and 70 ≤ h to NORMAL. -/
theorem claim_C4_alert_level_boundaries (h : ℚ) :
    (h < 40 → get_alert_level h = .CRITICAL) ∧
    (40 ≤ h → h < 70 → get_alert_level h = .WARNING) ∧
    (70 ≤ h → get_alert_level h = .NORMAL) := by
  refine ⟨fun h1 => ?_, fun h1 h2 => ?_, fun h1 => ?_⟩
  · unfold get_alert_level
    rw [if_pos h1]
  · unfold get_alert_level
    rw [if_neg (not_lt.mpr h1), if_pos h2]
  · unfold get_alert_level
    rw [if_neg (not_lt.mpr (le_trans (by norm_num) h1)), if_neg (not_lt.mpr h1)]

/-- Claim C4 witness: a score of exactly 40 is WARNING, not CRITICAL, and
exactly 70 is NORMAL, not WARNING. -/
theorem claim_C4_alert_level_boundaries_witness :
    get_alert_level 40 = .WARNING ∧ get_alert_level 70 = .NORMAL ∧
    get_alert_level 39 = .CRITICAL :=
  ⟨(claim_C4_alert_level_boundaries 40).2.1 (by decide) (by decide),
   (claim_C4_alert_level_boundaries 70).2.2 (by decide),
   (claim_C4_alert_level_boundaries 39).1 (by decide)⟩

/-- Claim C5: writing c for the number of channels (of the four checked)
flagged by check_machine, the scheduled monitor classifies c ≥ 3 as CRITICAL,
1 ≤ c < 3 as WARNING and c = 0 as NORMAL, and dispatches nothing in the NORMAL
case. -/
theorem claim_C5_anomaly_count_policy (data : List Reading) :
    (check_machine data).length ≤ 4 ∧
    (3 ≤ (check_machine data).length → (monitor_dispatch data).1 = .CRITICAL) ∧
    (1 ≤ (check_machine data).length → (check_machine data).length < 3 →
      (monitor_dispatch data).1 = .WARNING) ∧
    ((check_machine data).length = 0 → monitor_dispatch data = (.NORMAL, none)) := by
  refine ⟨?_, fun h3 => ?_, fun hge hlt => ?_, fun h0 => ?_⟩
  · unfold check_machine
    rw [List.length_map]
    exact le_trans (List.length_filter_le _ _) (by norm_num [checks])
  · have hl : monitor_level (check_machine data) = .CRITICAL := by
      unfold monitor_level
      rw [if_pos h3]
    unfold monitor_dispatch
    rw [hl]
    simp
  · have hl : monitor_level (check_machine data) = .WARNING := by
      unfold monitor_level
      rw [if_neg (by omega), if_pos hge]
    unfold monitor_dispatch
    rw [hl]
    simp
  · have hl : monitor_level (check_machine data) = .NORMAL := by
      unfold monitor_level
      rw [if_neg (by omega), if_neg (by omega)]
    unfold monitor_dispatch
    rw [hl]
    simp

/-- Claim C5 witness: a single nominal reading flags no channel, is NORMAL and
dispatches nothing. -/
theorem claim_C5_anomaly_count_policy_witness :
    monitor_dispatch [(⟨1, 1, 1, 1⟩ : Reading)] = (.NORMAL, none) :=
  (claim_C5_anomaly_count_policy [⟨1, 1, 1, 1⟩]).2.2.2 rfl

/-- Claim C6: for a non-empty series the health score is the one-decimal
rounding of the arithmetic mean of the four channel sub-scores, each of the
shape max(0, 100 - relative_change * 500); every sub-score is non-negative and
the health score lies in [0, 100]. -/
theorem claim_C6_health_score_bounds (data : List Reading) (_hne : data ≠ []) :
    calculate_health_score data
      = pyRound1 ((channel_sub_score data .vibration_g
          + channel_sub_score data .temperature_c
          + channel_sub_score data .power_kw
          + channel_sub_score data .pressure_bar) / 4) ∧
    (∀ b c : ℚ, 0 ≤ sub_score b c ∧
      ∃ rc : ℚ, 0 ≤ rc ∧ sub_score b c = max 0 (100 - rc * 500)) ∧
    0 ≤ calculate_health_score data ∧ calculate_health_score data ≤ 100 := by
  have hv := channel_sub_score_bounds data .vibration_g
  have ht := channel_sub_score_bounds data .temperature_c
  have hp := channel_sub_score_bounds data .power_kw
  have hpr := channel_sub_score_bounds data .pressure_bar
  have hm0 : 0 ≤ (channel_sub_score data .vibration_g
      + channel_sub_score data .temperature_c
      + channel_sub_score data .power_kw
      + channel_sub_score data .pressure_bar) / 4 := by
    have h1 := hv.1
    have h2 := ht.1
    have h3 := hp.1
    have h4 := hpr.1
    linarith
  have hm100 : (channel_sub_score data .vibration_g
      + channel_sub_score data .temperature_c
      + channel_sub_score data .power_kw
      + channel_sub_score data .pressure_bar) / 4 ≤ 100 := by
    have h1 := hv.2
    have h2 := ht.2
    have h3 := hp.2
    have h4 := hpr.2
    linarith
  have hround := pyRound1_bounds _ hm0 hm100
  exact ⟨rfl, fun b c => ⟨sub_score_nonneg b c, sub_score_form b c⟩,
    hround.1, hround.2⟩

/-- Claim C6 witness: the bounds evaluated on a one-reading series. -/
theorem claim_C6_health_score_bounds_witness :
    0 ≤ calculate_health_score [(⟨1, 1, 1, 1⟩ : Reading)] ∧
    calculate_health_score [(⟨1, 1, 1, 1⟩ : Reading)] ≤ 100 :=
  (claim_C6_health_score_bounds [⟨1, 1, 1, 1⟩] (by decide)).2.2

/-- Claim C7: for a series of length N ≥ 1 the proportional policy takes the
first max(5, N / 4) readings as baseline and the last max(3, N / 6) as
current, each window capped at N, and both are non-empty. -/
theorem claim_C7_proportional_windows (data : List Reading) (h : 1 ≤ data.length) :
    prop_baseline data = data.take (max 5 (data.length / 4)) ∧
    prop_current data = data.drop (data.length - max 3 (data.length / 6)) ∧
    (prop_baseline data).length = min (max 5 (data.length / 4)) data.length ∧
    (prop_current data).length = min (max 3 (data.length / 6)) data.length ∧
    prop_baseline data ≠ [] ∧ prop_current data ≠ [] := by
  have hb : (prop_baseline data).length = min (max 5 (data.length / 4)) data.length := by
    simp only [prop_baseline, List.length_take]
  have hc : (prop_current data).length = min (max 3 (data.length / 6)) data.length := by
    simp only [prop_current, lastN, List.length_drop]
    omega
  refine ⟨rfl, rfl, hb, hc, ?_, ?_⟩
  · rw [← List.length_pos, hb]
    omega
  · rw [← List.length_pos, hc]
    omega

/-- Claim C7 witness: both windows of a one-reading series are non-empty. -/
theorem claim_C7_proportional_windows_witness :
    prop_baseline [(⟨1, 2, 3, 4⟩ : Reading)] ≠ [] ∧
    prop_current [(⟨1, 2, 3, 4⟩ : Reading)] ≠ [] :=
  ⟨(claim_C7_proportional_windows [⟨1, 2, 3, 4⟩] (by decide)).2.2.2.2.1,
   (claim_C7_proportional_windows [⟨1, 2, 3, 4⟩] (by decide)).2.2.2.2.2⟩

/-- Claim C8: over any finite trace of iteration events the fleet monitoring
loop never crashes; it has terminated exactly when a KeyboardInterrupt
occurred, and then cleanly; a cycle failure is followed by a 60-second backoff
and a retry of the whole cycle; a missing telemetry source is caught inside
the cycle, so the loop proceeds to the next cycle after its sleep. -/
theorem claim_C8_loop_failure_handling (es : List LoopEvent) :
    loop_run es ≠ .crashed ∧
    (loop_run es = .stopped ↔ LoopEvent.interrupt ∈ es) ∧
    run_monitoring_cycle .dataUnavailable = .ok () ∧
    loop_iteration (.cycle .dataUnavailable) = .sleepThenRetry CHECK_INTERVAL ∧
    loop_iteration (.cycle .cycleError) = .sleepThenRetry 60 ∧
    loop_iteration .interrupt = .cleanExit :=
  ⟨(loop_run_spec es).1, (loop_run_spec es).2, rfl, rfl, rfl, rfl⟩

/-- Claim C8 witness: a trace with a failing cycle, a missing-data cycle and a
final interrupt stops cleanly; a trace without an interrupt is still
running. -/
theorem claim_C8_loop_failure_handling_witness :
    loop_run [LoopEvent.cycle .cycleError, LoopEvent.cycle .dataUnavailable,
      LoopEvent.interrupt] = .stopped ∧
    loop_run [LoopEvent.cycle .cycleError] ≠ .crashed :=
  ⟨(claim_C8_loop_failure_handling
      [LoopEvent.cycle .cycleError, LoopEvent.cycle .dataUnavailable,
        LoopEvent.interrupt]).2.1.mpr (by decide),
   (claim_C8_loop_failure_handling [LoopEvent.cycle .cycleError]).1⟩

/-- Claim C9: a channel whose proportional-baseline mean is zero or negative
gets a sub-score of exactly 100 whatever the current window holds, and 100 is
the largest value any sub-score can take, so such a channel can never lower
the health score. -/
theorem claim_C9_nonpositive_baseline_channel (data : List Reading) (ch : Channel)
    (hb : qmean (colValues (prop_baseline data) ch) ≤ 0) :
    channel_sub_score data ch = 100 ∧ ∀ b c : ℚ, sub_score b c ≤ 100 := by
  constructor
  · unfold channel_sub_score sub_score
    rw [if_neg (not_lt.mpr hb)]
  · exact fun b c => sub_score_le_100 b c

/-- Claim C9 witness: a dead (all-zero) vibration channel scores 100. -/
theorem claim_C9_nonpositive_baseline_channel_witness :
    channel_sub_score [(⟨0, 0, 0, 0⟩ : Reading)] Channel.vibration_g = 100 :=
  (claim_C9_nonpositive_baseline_channel [⟨0, 0, 0, 0⟩] Channel.vibration_g
    (by simp [prop_baseline, colValues, qmean, Reading.channel])).1

/-- Claim C1 (evaluation of the code at the failing input): on
pressureRiseSeries the pressure mean rises from baseline (51/10) to current
(7), so the pressure z-score is positive (about +6), yet check_machine counts
a pressure anomaly: the abs() applied to both sides at auto_monitor.py:68
discards the downward direction that the checks table declares for pressure,
so a pressure increase is counted. -/
theorem claim_C1_pressure_rise_is_counted :
    check_machine pressureRiseSeries = [Channel.pressure_bar] ∧
    qmean (colValues (pressureRiseSeries.take 10) Channel.pressure_bar)
      < qmean (colValues (lastN 3 pressureRiseSeries) Channel.pressure_bar) := by
  have hcolv : colValues (pressureRiseSeries.take 10) Channel.vibration_g
      = [1, 1, 1, 1, 1, 1, 1, 1, 1, 1] := rfl
  have hcolt : colValues (pressureRiseSeries.take 10) Channel.temperature_c
      = [50, 50, 50, 50, 50, 50, 50, 50, 50, 50] := rfl
  have hcolp : colValues (pressureRiseSeries.take 10) Channel.pressure_bar
      = [5, 5, 5, 5, 5, 5, 5, 5, 5, 6] := rfl
  have hcolw : colValues (pressureRiseSeries.take 10) Channel.power_kw
      = [10, 10, 10, 10, 10, 10, 10, 10, 10, 10] := rfl
  have hcolv3 : colValues (lastN 3 pressureRiseSeries) Channel.vibration_g = [1, 1, 1] := rfl
  have hcolt3 : colValues (lastN 3 pressureRiseSeries) Channel.temperature_c = [50, 50, 50] := rfl
  have hcolp3 : colValues (lastN 3 pressureRiseSeries) Channel.pressure_bar = [7, 7, 7] := rfl
  have hcolw3 : colValues (lastN 3 pressureRiseSeries) Channel.power_kw = [10, 10, 10] := rfl
  have hv1 : sampleVar [(1 : ℚ), 1, 1, 1, 1, 1, 1, 1, 1, 1] = some 0 := by
    norm_num [sampleVar, qmean]
  have hv50 : sampleVar [(50 : ℚ), 50, 50, 50, 50, 50, 50, 50, 50, 50] = some 0 := by
    norm_num [sampleVar, qmean]
  have hv10 : sampleVar [(10 : ℚ), 10, 10, 10, 10, 10, 10, 10, 10, 10] = some 0 := by
    norm_num [sampleVar, qmean]
  have hvp : sampleVar [(5 : ℚ), 5, 5, 5, 5, 5, 5, 5, 5, 6] = some (1 / 10) := by
    norm_num [sampleVar, qmean]
  have ha1 : absZExceeds [(1 : ℚ), 1, 1, 1, 1, 1, 1, 1, 1, 1] [1, 1, 1] 2 = false := by
    simp only [absZExceeds, hv1]
    rw [decide_eq_false (show ¬ ((0 : ℚ) < 0) by norm_num), Bool.false_and]
  have ha50 : absZExceeds [(50 : ℚ), 50, 50, 50, 50, 50, 50, 50, 50, 50] [50, 50, 50] 2 = false := by
    simp only [absZExceeds, hv50]
    rw [decide_eq_false (show ¬ ((0 : ℚ) < 0) by norm_num), Bool.false_and]
  have ha10 : absZExceeds [(10 : ℚ), 10, 10, 10, 10, 10, 10, 10, 10, 10] [10, 10, 10] 2 = false := by
    simp only [absZExceeds, hv10]
    rw [decide_eq_false (show ¬ ((0 : ℚ) < 0) by norm_num), Bool.false_and]
  have hqb : qmean [(5 : ℚ), 5, 5, 5, 5, 5, 5, 5, 5, 6] = 51 / 10 := by
    norm_num [qmean]
  have hqc : qmean [(7 : ℚ), 7, 7] = 7 := by
    norm_num [qmean]
  have hap : absZExceeds [(5 : ℚ), 5, 5, 5, 5, 5, 5, 5, 5, 6] [7, 7, 7] (-2) = true := by
    simp only [absZExceeds, hvp]
    rw [hqb, hqc]
    rw [decide_eq_true (show (0 : ℚ) < 1 / 10 by norm_num),
      decide_eq_true (show ((-2 : ℚ)) ^ 2 * (1 / 10) < (7 - 51 / 10) ^ 2 by norm_num),
      Bool.and_self]
  constructor
  · unfold check_machine
    simp only [checks, List.filter_cons, List.filter_nil, hcolv, hcolt, hcolp, hcolw,
      hcolv3, hcolt3, hcolp3, hcolw3, ha1, ha50, ha10, hap]
    simp
  · rw [hcolp, hcolp3, hqb, hqc]
    norm_num

/-- Claim C10: a one-reading series has a NaN baseline sample std on every
channel (fewer than two samples), so the b_std > 0 guard fails, every z_score
falls to its 0 branch, no channel is flagged, and the scheduled monitor
classifies the machine NORMAL and dispatches nothing. -/
theorem claim_C10_single_reading_normal (r : Reading) :
    (∀ ch : Channel, sampleVar (colValues (List.take 10 [r]) ch) = none) ∧
    (∀ ch : Channel, stdPos (colValues (List.take 10 [r]) ch) = false) ∧
    check_machine [r] = [] ∧
    monitor_dispatch [r] = (.NORMAL, none) :=
  ⟨fun _ => rfl, fun _ => rfl, rfl, rfl⟩

end FactoryGuardian
